import Mathlib

/-!
Verification of the CI changelog gate script
(`.forgejo/workflows/check-changelog.py`).

The script reads CI environment variables, optionally skips the check when
the commit message carries a skip marker, computes a git revision range,
runs `git diff-tree` over that range, and decides an exit status from the
captured output streams.  We embed it as a pure function of the process
environment (a partial map from variable names to values) and of a diff
oracle (a function from the revision range to the captured result of the
child process).  Byte strings are modelled as `String` over their ASCII
code points; Python f-string interpolation of a `bytes` value is modelled
by `pyBytesRepr`, the `repr` of a bytes object.
-/

namespace ChangelogGate

/-- Result of the `subprocess.run` call on `git diff-tree`: captured
standard output, captured standard error, and the child exit status
(the script never reads the status, but `subprocess.run` records it). -/
structure DiffResult where
  stdout : String
  stderr : String
  exitStatus : Nat
deriving Repr, DecidableEq

/-- Observable outcome of one run of the script: the process exit code,
the lines printed to standard output (one entry per `print` call), the
environment variables read in order of the subscript evaluations, and the
revision range passed to the diff subprocess when one was spawned. -/
structure Run where
  exitCode : Nat
  output : List String
  accessed : List String
  invoked : Option String
deriving Repr, DecidableEq

/-- Lowercase an ASCII letter, the case folding used by `re.I` matching of
the ASCII patterns in the script. -/
def asciiLower (c : Char) : Char :=
  if 65 ≤ c.toNat && c.toNat ≤ 90 then Char.ofNat (c.toNat + 32) else c

/-- Whitespace class of the regex escape `\s` on bytes patterns. -/
def isSpaceB (c : Char) : Bool :=
  c = ' ' || c = '\t' || c = '\n' || c = '\x0b' || c = '\x0c' || c = '\r'

/-- Unanchored search: does `p` accept some suffix of the list
(`re.search` tries every start position, the end of the input included)? -/
def searchAny (p : List Char → Bool) : List Char → Bool
  | [] => p []
  | c :: cs => p (c :: cs) || searchAny p cs

/-- Match of `skip.?changelog` at the head of an (already lowercased)
character list: the literal `skip`, then at most one character other than
a newline (`.` does not match a newline without `re.DOTALL`), then the
literal `changelog`. -/
def skipHere (cs : List Char) : Bool :=
  "skip".toList.isPrefixOf cs &&
    (let r := cs.drop 4
     "changelog".toList.isPrefixOf r ||
       match r with
       | c :: r2 => c ≠ '\n' && "changelog".toList.isPrefixOf r2
       | [] => false)

/-- `re.search(r'skip.?changelog', msg, flags=re.I) is not None`,
line 13 of the script. -/
def skipChangelogMatch (msg : String) : Bool :=
  searchAny skipHere (msg.toList.map asciiLower)

/-- Match of `\S*changelog` at the head of an (already lowercased)
character list: zero or more non-whitespace characters, then the literal
`changelog`. -/
def nonSpaceThenChangelog : List Char → Bool
  | [] => false
  | c :: cs =>
    "changelog".toList.isPrefixOf (c :: cs) ||
      (!isSpaceB c && nonSpaceThenChangelog cs)

/-- Match of `\s*\S*changelog` at the head of a character list. -/
def afterSpaces : List Char → Bool
  | [] => false
  | c :: cs => nonSpaceThenChangelog (c :: cs) || (isSpaceB c && afterSpaces cs)

/-- Match of `[AM]\s+\S*changelog` at the head of an (already lowercased)
character list: an `A` or `M` status letter, at least one whitespace
character, then a run of non-whitespace ending in `changelog`. -/
def policyHere : List Char → Bool
  | c :: d :: rest => (c = 'a' || c = 'm') && isSpaceB d && afterSpaces rest
  | _ => false

/-- `re.search(rb'[AM]\s+\S*changelog', diff.stdout, flags=re.I) is not
None`, line 35 of the script.  The pattern is unanchored: the match may
start anywhere in the diff output. -/
def policyMatch (stdout : String) : Bool :=
  searchAny policyHere (stdout.toList.map asciiLower)

/-- Hexadecimal digit character for `0 ≤ n < 16`, lowercase. -/
def hexDigit (n : Nat) : Char :=
  if n < 10 then Char.ofNat (48 + n) else Char.ofNat (87 + n)

/-- Two-digit lowercase hexadecimal rendering of a byte value. -/
def hexByte (n : Nat) : String :=
  String.mk [hexDigit (n / 16 % 16), hexDigit (n % 16)]

/-- Escaping of one byte inside the Python `repr` of a bytes object using
quote character `q`: backslash and the quote are backslash-escaped, tab,
newline and carriage return use their mnemonic escapes, other bytes
outside the printable ASCII range use `\xhh`. -/
def pyByteEscape (q : Char) (c : Char) : String :=
  if c = '\\' then "\\\\"
  else if c = q then String.mk ['\\', q]
  else if c = '\t' then "\\t"
  else if c = '\n' then "\\n"
  else if c = '\r' then "\\r"
  else if c.toNat < 32 || 126 < c.toNat then "\\x" ++ hexByte c.toNat
  else String.mk [c]

/-- Python `repr` of a bytes object, which is what an f-string such as
`f'An error occured: {diff.stderr}'` interpolates for a bytes value: a
`b` prefix, then the content between single quotes (double quotes when the
content holds a single quote but no double quote), with bytes escaped by
`pyByteEscape`. -/
def pyBytesRepr (s : String) : String :=
  let q : Char :=
    if s.toList.contains (Char.ofNat 39) && !s.toList.contains '"' then '"'
    else Char.ofNat 39
  String.mk ['b', q] ++ String.join (s.toList.map (pyByteEscape q)) ++ String.mk [q]

/-- Verdict string printed when a changelog change is found (line 42). -/
def passMsg : String := "Changelog has been updated as expected."

/-- Verdict string printed when no changelog change is found (lines
36 to 40; the two adjacent Python string literals concatenate). -/
def failMsg : String :=
  "Please update the Changelog. Use \"skip-changelog\" in the commit message to skip this check."

/-- The report line of line 32 of the script,
`f'Files in {treeish}:\n{diff.stdout}'`. -/
def reportLine (treeish : String) (d : DiffResult) : String :=
  "Files in " ++ treeish ++ ":\n" ++ pyBytesRepr d.stdout

/-- Lines 28 to 42 of the script, everything after the diff subprocess
returns: surface a non-empty error stream and exit 1; otherwise print the
report line, then exit 0 with the success verdict when the policy pattern
matches the diff output and exit 1 with the instruction verdict when it
does not.  Returns the exit code and the printed lines. -/
def postDiff (treeish : String) (d : DiffResult) : Nat × List String :=
  if d.stderr ≠ "" then
    (1, ["An error occured: " ++ pyBytesRepr d.stderr])
  else if policyMatch d.stdout then
    (0, [reportLine treeish d, passMsg])
  else
    (1, [reportLine treeish d, failMsg])

/-- Lines 17 to 21 of the script: revision-range selection.  The default
range is `main..`; a push to `main` narrows it to `<before-sha>..`
(the `and` on line 18 short-circuits, so the ref name is only read when
the source is `push`, and the before-SHA only when the ref is `main`);
line 20 reads the pipeline source a second time and a merge-request event
overrides the range with `<merge-request-diff-base-sha>..`.  Returns the
range together with the environment subscripts evaluated, or the name of
a missing variable (an uncaught `KeyError`). -/
def rangeStep (env : String → Option String) : Except String (String × List String) :=
  match env "CI_PIPELINE_SOURCE" with
  | none => .error "CI_PIPELINE_SOURCE"
  | some src =>
    let step1 : Except String (String × List String) :=
      if src = "push" then
        match env "CI_COMMIT_REF_NAME" with
        | none => .error "CI_COMMIT_REF_NAME"
        | some ref =>
          if ref = "main" then
            match env "CI_COMMIT_BEFORE_SHA" with
            | none => .error "CI_COMMIT_BEFORE_SHA"
            | some b =>
              .ok (b ++ "..",
                ["CI_PIPELINE_SOURCE", "CI_COMMIT_REF_NAME", "CI_COMMIT_BEFORE_SHA"])
          else .ok ("main..", ["CI_PIPELINE_SOURCE", "CI_COMMIT_REF_NAME"])
      else .ok ("main..", ["CI_PIPELINE_SOURCE"])
    match step1 with
    | .error k => .error k
    | .ok (t1, r1) =>
      match env "CI_PIPELINE_SOURCE" with
      | none => .error "CI_PIPELINE_SOURCE"
      | some src2 =>
        if src2 = "merge_request_event" then
          match env "CI_MERGE_REQUEST_DIFF_BASE_SHA" with
          | none => .error "CI_MERGE_REQUEST_DIFF_BASE_SHA"
          | some b =>
            .ok (b ++ "..",
              r1 ++ ["CI_PIPELINE_SOURCE", "CI_MERGE_REQUEST_DIFF_BASE_SHA"])
        else .ok (t1, r1 ++ ["CI_PIPELINE_SOURCE"])

/-- The whole script, lines 11 to 42: read the commit message (an absent
variable is an uncaught `KeyError`, returned as `.error` with the variable
name); exit 0 at once when the skip pattern matches; otherwise select the
revision range, invoke the diff oracle on it, and finish with `postDiff`. -/
def runChecker (env : String → Option String) (git : String → DiffResult) :
    Except String Run :=
  match env "CI_COMMIT_MESSAGE" with
  | none => .error "CI_COMMIT_MESSAGE"
  | some msg =>
    if skipChangelogMatch msg then
      .ok ⟨0, ["Changelog skipped."], ["CI_COMMIT_MESSAGE"], none⟩
    else
      match rangeStep env with
      | .error k => .error k
      | .ok (treeish, reads) =>
        let d := git treeish
        .ok ⟨(postDiff treeish d).1, (postDiff treeish d).2,
             "CI_COMMIT_MESSAGE" :: reads, some treeish⟩

/-! ### Spec-side patterns

The specification describes the two regexes in different words than the
script uses.  To compare, we transcribe the patterns exactly as the spec
states them; these two definitions follow the spec text, not the source. -/

/-- Word-character class `\w` of the spec pattern, ASCII reading. -/
def isWordChar (c : Char) : Bool := c.isAlphanum || c = '_'

/-- Match of `\W*changelog` at the head of a character list. -/
def specWThenChangelog : List Char → Bool
  | [] => false
  | c :: cs =>
    "changelog".toList.isPrefixOf (c :: cs) ||
      (!isWordChar c && specWThenChangelog cs)

/-- Match of the spec skip pattern at the head of an (already lowercased)
character list: `skip`, then zero or more NON-WORD characters, then
`changelog` (the spec words: the case-insensitive pattern "skip" followed
by zero-or-more non-word characters then "changelog"). -/
def specSkipHere (cs : List Char) : Bool :=
  "skip".toList.isPrefixOf cs && specWThenChangelog (cs.drop 4)

/-- The spec skip predicate: some position of the message matches
`skip\W*changelog`, case-insensitively. -/
def specSkipMatch (msg : String) : Bool :=
  searchAny specSkipHere (msg.toList.map asciiLower)

/-- Split a character list into lines at newline characters. -/
def splitLines : List Char → List (List Char)
  | [] => [[]]
  | c :: cs =>
    let rest := splitLines cs
    if c = '\n' then [] :: rest
    else
      match rest with
      | l :: ls => (c :: l) :: ls
      | [] => [[c]]

/-- Match of the spec policy pattern `^[AM]\s+.*changelog` against one
(already lowercased) line: the line BEGINS with an `A` or `M` status code,
then at least one whitespace character, then `changelog` appears somewhere
later in the line. -/
def specLineMatch : List Char → Bool
  | c :: d :: rest =>
    (c = 'a' || c = 'm') && isSpaceB d &&
      searchAny (fun r => "changelog".toList.isPrefixOf r) rest
  | _ => false

/-- The spec policy predicate: the diff output contains a line matching
`^[AM]\s+.*changelog` case-insensitively. -/
def specPolicyHolds (stdout : String) : Bool :=
  (splitLines (stdout.toList.map asciiLower)).any specLineMatch

/-! ### Concrete environments and diff oracles used as test inputs -/

/-- Environment with an ordinary commit message and a pipeline source that
is neither `push` nor `merge_request_event`. -/
def envNoSkip : String → Option String := fun k =>
  if k = "CI_COMMIT_MESSAGE" then some "fix bug"
  else if k = "CI_PIPELINE_SOURCE" then some "api"
  else none

/-- Environment whose commit message has two non-word characters between
`skip` and `changelog`. -/
def envSkipSpec : String → Option String := fun k =>
  if k = "CI_COMMIT_MESSAGE" then some "skip--changelog"
  else if k = "CI_PIPELINE_SOURCE" then some "api"
  else none

/-- Environment holding only the commit message, with a skip marker. -/
def envSkipOnly : String → Option String := fun k =>
  if k = "CI_COMMIT_MESSAGE" then some "skip-changelog" else none

/-- Environment with a skip marker and arbitrary values everywhere else. -/
def envSkipFull : String → Option String := fun k =>
  if k = "CI_COMMIT_MESSAGE" then some "skip-changelog" else some "junk"

/-- Completely empty environment. -/
def envNone : String → Option String := fun _ => none

/-- Environment holding only an ordinary commit message. -/
def envMsgOnly : String → Option String := fun k =>
  if k = "CI_COMMIT_MESSAGE" then some "fix bug" else none

/-- Push trigger with the ref name missing. -/
def envPushNoRef : String → Option String := fun k =>
  if k = "CI_COMMIT_MESSAGE" then some "fix bug"
  else if k = "CI_PIPELINE_SOURCE" then some "push"
  else none

/-- Push trigger on `main` with the before-SHA missing. -/
def envPushMainNoBefore : String → Option String := fun k =>
  if k = "CI_COMMIT_MESSAGE" then some "fix bug"
  else if k = "CI_PIPELINE_SOURCE" then some "push"
  else if k = "CI_COMMIT_REF_NAME" then some "main"
  else none

/-- Merge-request trigger with the diff base SHA missing. -/
def envMergeNoBase : String → Option String := fun k =>
  if k = "CI_COMMIT_MESSAGE" then some "fix bug"
  else if k = "CI_PIPELINE_SOURCE" then some "merge_request_event"
  else none

/-- Push trigger on `main` with a before-SHA. -/
def envPushMain : String → Option String := fun k =>
  if k = "CI_PIPELINE_SOURCE" then some "push"
  else if k = "CI_COMMIT_REF_NAME" then some "main"
  else if k = "CI_COMMIT_BEFORE_SHA" then some "abc123"
  else none

/-- Merge-request trigger with a diff base SHA. -/
def envMergeBase : String → Option String := fun k =>
  if k = "CI_PIPELINE_SOURCE" then some "merge_request_event"
  else if k = "CI_MERGE_REQUEST_DIFF_BASE_SHA" then some "def456"
  else none

/-- Trigger that is neither a push nor a merge-request event, with a ref
name present. -/
def envOtherRef : String → Option String := fun k =>
  if k = "CI_PIPELINE_SOURCE" then some "api"
  else if k = "CI_COMMIT_REF_NAME" then some "feature" else none

/-- Diff whose output has a changelog path containing a space: it matches
the spec pattern `^[AM]\s+.*changelog` but not the pattern of the code. -/
def gitUnanchored : String → DiffResult := fun _ =>
  ⟨"M\tfoo bar/changelog", "", 0⟩

/-- Diff output in the actual raw format of `git diff-tree -r` (lines
begin with a colon): no line begins with a status letter, yet the
unanchored pattern of the code matches `M<TAB>changelog` mid-line. -/
def gitRawFormat : String → DiffResult := fun _ =>
  ⟨":100644 100644 aaaa bbbb M\tchangelog", "", 0⟩

/-- Diff with empty output and empty error stream. -/
def gitEmptyDiff : String → DiffResult := fun _ => ⟨"", "", 0⟩

/-- Diff that failed with `fatal: bad range` on its error stream. -/
def gitBadRange : String → DiffResult := fun _ => ⟨"", "fatal: bad range", 128⟩

/-- Diff whose output is a plain added-changelog status line. -/
def gitPassDiff : String → DiffResult := fun _ => ⟨"M\tCHANGELOG.md", "", 0⟩

/-! ### Helper lemma -/

/-- When a run completes normally and records an invoked range `t`, its
exit code and printed lines are those `postDiff` computes from the diff
result for `t`. -/
theorem runChecker_ok_invoked (env : String → Option String)
    (git : String → DiffResult) (r : Run) (t : String)
    (h : runChecker env git = .ok r) (ht : r.invoked = some t) :
    r.exitCode = (postDiff t (git t)).1 ∧ r.output = (postDiff t (git t)).2 := by
  unfold runChecker at h
  split at h
  · exact Except.noConfusion h
  · split at h
    · injection h with h2
      subst h2
      simp at ht
    · split at h
      · exact Except.noConfusion h
      · injection h with h2
        subst h2
        simp only [Run.invoked, Option.some.injEq] at ht
        subst ht
        exact ⟨rfl, rfl⟩

/-! ### Claims -/

/-- Claim C1, as stated, is false: a diff output whose single line is
`M<TAB>foo bar/changelog` matches the spec pattern `^[AM]\s+.*changelog`
(the path contains a space, covered by `.*`), the error stream is empty,
yet the program exits with status 1, because the regex of the code,
`[AM]\s+\S*changelog`, cannot span the space with `\S*`. -/
theorem C1_counterexample :
    (gitUnanchored "main..").stderr = "" ∧
    specPolicyHolds (gitUnanchored "main..").stdout = true ∧
    (runChecker envNoSkip gitUnanchored).map Run.exitCode = .ok 1 :=
  ⟨rfl, by decide, rfl⟩

/-- Claim C1 amended: for every run that reaches the diff query with an
empty error stream, if the diff output contains, anywhere (not necessarily
at a line start), a match of `[AM]\s+\S*changelog` case-insensitively,
the program prints the report followed by the success message and
terminates with exit status 0. -/
theorem C1_policy_pass (env : String → Option String)
    (git : String → DiffResult) (r : Run) (t : String)
    (h : runChecker env git = .ok r) (ht : r.invoked = some t)
    (he : (git t).stderr = "") (hp : policyMatch (git t).stdout = true) :
    r.exitCode = 0 ∧ r.output = [reportLine t (git t), passMsg] := by
  obtain ⟨hc, ho⟩ := runChecker_ok_invoked env git r t h ht
  rw [hc, ho]
  simp [postDiff, he, hp]

/-- Witness for the amended claim C1 at a concrete run. -/
theorem C1_policy_pass_witness :
    (⟨0, [reportLine "main.." (gitPassDiff "main.."), passMsg],
      ["CI_COMMIT_MESSAGE", "CI_PIPELINE_SOURCE", "CI_PIPELINE_SOURCE"],
      some "main.."⟩ : Run).exitCode = 0 ∧
    (⟨0, [reportLine "main.." (gitPassDiff "main.."), passMsg],
      ["CI_COMMIT_MESSAGE", "CI_PIPELINE_SOURCE", "CI_PIPELINE_SOURCE"],
      some "main.."⟩ : Run).output =
      [reportLine "main.." (gitPassDiff "main.."), passMsg] :=
  C1_policy_pass envNoSkip gitPassDiff _ "main.." rfl rfl rfl (by decide)

/-- Claim C2, as stated, is false: a diff output in the actual raw format
of `git diff-tree -r` begins with a colon, so no line matches the
anchored spec pattern `^[AM]\s+.*changelog`, yet the unanchored regex of
the code finds `M<TAB>changelog` mid-line and the program exits with
status 0. -/
theorem C2_counterexample :
    (gitRawFormat "main..").stderr = "" ∧
    specPolicyHolds (gitRawFormat "main..").stdout = false ∧
    (runChecker envNoSkip gitRawFormat).map Run.exitCode = .ok 0 :=
  ⟨rfl, by decide, rfl⟩

/-- Claim C2 amended: for every run that reaches the diff query with an
empty error stream, if the diff output contains no match of
`[AM]\s+\S*changelog` case-insensitively anywhere, the program prints the
report followed by the instructional message and terminates with exit
status 1. -/
theorem C2_policy_fail (env : String → Option String)
    (git : String → DiffResult) (r : Run) (t : String)
    (h : runChecker env git = .ok r) (ht : r.invoked = some t)
    (he : (git t).stderr = "") (hp : policyMatch (git t).stdout = false) :
    r.exitCode = 1 ∧ r.output = [reportLine t (git t), failMsg] := by
  obtain ⟨hc, ho⟩ := runChecker_ok_invoked env git r t h ht
  rw [hc, ho]
  simp [postDiff, he, hp]

/-- Witness for the amended claim C2 at a concrete run. -/
theorem C2_policy_fail_witness :
    (⟨1, [reportLine "main.." (gitEmptyDiff "main.."), failMsg],
      ["CI_COMMIT_MESSAGE", "CI_PIPELINE_SOURCE", "CI_PIPELINE_SOURCE"],
      some "main.."⟩ : Run).exitCode = 1 ∧
    (⟨1, [reportLine "main.." (gitEmptyDiff "main.."), failMsg],
      ["CI_COMMIT_MESSAGE", "CI_PIPELINE_SOURCE", "CI_PIPELINE_SOURCE"],
      some "main.."⟩ : Run).output =
      [reportLine "main.." (gitEmptyDiff "main.."), failMsg] :=
  C2_policy_fail envNoSkip gitEmptyDiff _ "main.." rfl rfl rfl (by decide)

/-- Claim C3, as stated, is false: the message `skip--changelog` matches
the spec pattern `skip\W*changelog` (two non-word characters between the
words), but the regex of the code, `skip.?changelog`, allows at most ONE
character there, so the run is not skipped: the diff query is invoked and
the program exits with status 1. -/
theorem C3_counterexample :
    specSkipMatch "skip--changelog" = true ∧
    skipChangelogMatch "skip--changelog" = false ∧
    runChecker envSkipSpec gitEmptyDiff =
      .ok ⟨1, [reportLine "main.." (gitEmptyDiff "main.."), failMsg],
           ["CI_COMMIT_MESSAGE", "CI_PIPELINE_SOURCE", "CI_PIPELINE_SOURCE"],
           some "main.."⟩ :=
  ⟨by decide, by decide, rfl⟩

/-- Claim C3 amended: for every commit message matching the pattern of
the code — `skip`, then at most one character other than a newline, then
`changelog`, case-insensitively — the program prints the confirmation and
terminates with exit status 0 immediately, reading no other variable and
invoking no diff query. -/
theorem C3_skip_code_pattern (env : String → Option String)
    (git : String → DiffResult) (m : String)
    (hm : env "CI_COMMIT_MESSAGE" = some m)
    (hs : skipChangelogMatch m = true) :
    runChecker env git =
      .ok ⟨0, ["Changelog skipped."], ["CI_COMMIT_MESSAGE"], none⟩ := by
  unfold runChecker
  rw [hm]
  simp [hs]

/-- Witness for the amended claim C3 at a concrete run. -/
theorem C3_skip_code_pattern_witness :
    runChecker envSkipOnly gitEmptyDiff =
      .ok ⟨0, ["Changelog skipped."], ["CI_COMMIT_MESSAGE"], none⟩ :=
  C3_skip_code_pattern envSkipOnly gitEmptyDiff "skip-changelog" rfl (by decide)

/-- Claim C4: the revision range is `<before-sha>..` for a push on the
`main` ref, `<merge-request-diff-base-sha>..` for a merge-request event,
and `main..` for every other trigger/ref combination. -/
theorem C4_range_selection :
    (∀ (env : String → Option String) (b : String),
      env "CI_PIPELINE_SOURCE" = some "push" →
      env "CI_COMMIT_REF_NAME" = some "main" →
      env "CI_COMMIT_BEFORE_SHA" = some b →
      (rangeStep env).map Prod.fst = .ok (b ++ "..")) ∧
    (∀ (env : String → Option String) (b : String),
      env "CI_PIPELINE_SOURCE" = some "merge_request_event" →
      env "CI_MERGE_REQUEST_DIFF_BASE_SHA" = some b →
      (rangeStep env).map Prod.fst = .ok (b ++ "..")) ∧
    (∀ (env : String → Option String) (src ref : String),
      env "CI_PIPELINE_SOURCE" = some src →
      env "CI_COMMIT_REF_NAME" = some ref →
      ¬(src = "push" ∧ ref = "main") → src ≠ "merge_request_event" →
      (rangeStep env).map Prod.fst = .ok "main..") := by
  refine ⟨?_, ?_, ?_⟩
  · intro env b hs hr hb
    simp [rangeStep, hs, hr, hb, Except.map]
  · intro env b hs hb
    simp [rangeStep, hs, hb, Except.map]
  · intro env src ref hs hr hnm hne
    by_cases hp : src = "push"
    · subst hp
      have hrm : ref ≠ "main" := fun hm => hnm ⟨rfl, hm⟩
      simp [rangeStep, hs, hr, hrm, Except.map]
    · simp [rangeStep, hs, hr, hp, hne, Except.map]

/-- Witness for claim C4: all three range selections at concrete
environments. -/
theorem C4_range_selection_witness :
    (rangeStep envPushMain).map Prod.fst = .ok ("abc123" ++ "..") ∧
    (rangeStep envMergeBase).map Prod.fst = .ok ("def456" ++ "..") ∧
    (rangeStep envOtherRef).map Prod.fst = .ok "main.." :=
  ⟨C4_range_selection.1 envPushMain "abc123" rfl rfl rfl,
   C4_range_selection.2.1 envMergeBase "def456" rfl rfl,
   C4_range_selection.2.2 envOtherRef "api" "feature" rfl rfl
     (by decide) (by decide)⟩

/-- Claim C5: whenever the diff query returns a non-empty error stream,
the run prints the error content (through the bytes `repr` of the
f-string) and exits with status 1, whatever the standard output holds. -/
theorem C5_stderr_failure (env : String → Option String)
    (git : String → DiffResult) (r : Run) (t : String)
    (h : runChecker env git = .ok r) (ht : r.invoked = some t)
    (he : (git t).stderr ≠ "") :
    r.exitCode = 1 ∧
    r.output = ["An error occured: " ++ pyBytesRepr (git t).stderr] := by
  obtain ⟨hc, ho⟩ := runChecker_ok_invoked env git r t h ht
  rw [hc, ho]
  simp [postDiff, he]

/-- Witness for claim C5 at a concrete run whose diff query fails even
though its standard output holds a matching changelog line. -/
theorem C5_stderr_failure_witness :
    (⟨1, ["An error occured: " ++ pyBytesRepr "fatal: bad range"],
      ["CI_COMMIT_MESSAGE", "CI_PIPELINE_SOURCE", "CI_PIPELINE_SOURCE"],
      some "main.."⟩ : Run).exitCode = 1 ∧
    (⟨1, ["An error occured: " ++ pyBytesRepr "fatal: bad range"],
      ["CI_COMMIT_MESSAGE", "CI_PIPELINE_SOURCE", "CI_PIPELINE_SOURCE"],
      some "main.."⟩ : Run).output =
      ["An error occured: " ++ pyBytesRepr (gitBadRange "main..").stderr] :=
  C5_stderr_failure envNoSkip gitBadRange _ "main.." rfl rfl (by decide)

/-- Claim C6: on the run whose diff query reports `fatal: bad range`, the
program exits with status 1 and the error-stream content appears verbatim
inside the printed message (between the quotes of the bytes `repr`). -/
theorem C6_bad_range_verbatim :
    runChecker envNoSkip gitBadRange =
      .ok ⟨1,
        ["An error occured: " ++
          ("b\x27" ++ "fatal: bad range" ++ "\x27")],
        ["CI_COMMIT_MESSAGE", "CI_PIPELINE_SOURCE", "CI_PIPELINE_SOURCE"],
        some "main.."⟩ := rfl

/-- Claim C7, as stated, is false: with the commit message holding a skip
marker and ALL four other required variables absent, the run terminates
normally with exit status 0 instead of failing fast — the other variables
are simply never read on the skip path. -/
theorem C7_counterexample :
    envSkipOnly "CI_PIPELINE_SOURCE" = none ∧
    envSkipOnly "CI_COMMIT_REF_NAME" = none ∧
    envSkipOnly "CI_COMMIT_BEFORE_SHA" = none ∧
    envSkipOnly "CI_MERGE_REQUEST_DIFF_BASE_SHA" = none ∧
    runChecker envSkipOnly gitBadRange =
      .ok ⟨0, ["Changelog skipped."], ["CI_COMMIT_MESSAGE"], none⟩ :=
  ⟨rfl, rfl, rfl, rfl, rfl⟩

/-- Claim C7 amended: a missing environment variable aborts the run with
an uncaught configuration fault (no exit status, no diff query) exactly
when the control flow reads it: the commit message always; the pipeline
source when the message has no skip marker; the ref name additionally
when the source is `push`; the before-SHA additionally when the ref is
`main`; the merge-request diff base SHA when the source is
`merge_request_event`.  Variables that are never read may be absent
without effect. -/
theorem C7_missing_vars :
    (∀ (env : String → Option String) (git : String → DiffResult),
      env "CI_COMMIT_MESSAGE" = none →
      runChecker env git = .error "CI_COMMIT_MESSAGE") ∧
    (∀ (env : String → Option String) (git : String → DiffResult)
        (m : String), env "CI_COMMIT_MESSAGE" = some m →
      skipChangelogMatch m = false → env "CI_PIPELINE_SOURCE" = none →
      runChecker env git = .error "CI_PIPELINE_SOURCE") ∧
    (∀ (env : String → Option String) (git : String → DiffResult)
        (m : String), env "CI_COMMIT_MESSAGE" = some m →
      skipChangelogMatch m = false →
      env "CI_PIPELINE_SOURCE" = some "push" →
      env "CI_COMMIT_REF_NAME" = none →
      runChecker env git = .error "CI_COMMIT_REF_NAME") ∧
    (∀ (env : String → Option String) (git : String → DiffResult)
        (m : String), env "CI_COMMIT_MESSAGE" = some m →
      skipChangelogMatch m = false →
      env "CI_PIPELINE_SOURCE" = some "push" →
      env "CI_COMMIT_REF_NAME" = some "main" →
      env "CI_COMMIT_BEFORE_SHA" = none →
      runChecker env git = .error "CI_COMMIT_BEFORE_SHA") ∧
    (∀ (env : String → Option String) (git : String → DiffResult)
        (m : String), env "CI_COMMIT_MESSAGE" = some m →
      skipChangelogMatch m = false →
      env "CI_PIPELINE_SOURCE" = some "merge_request_event" →
      env "CI_MERGE_REQUEST_DIFF_BASE_SHA" = none →
      runChecker env git = .error "CI_MERGE_REQUEST_DIFF_BASE_SHA") := by
  refine ⟨?_, ?_, ?_, ?_, ?_⟩
  · intro env git hm
    simp [runChecker, hm]
  · intro env git m hm hskip hs
    simp [runChecker, rangeStep, hm, hskip, hs]
  · intro env git m hm hskip hs hr
    simp [runChecker, rangeStep, hm, hskip, hs, hr]
  · intro env git m hm hskip hs hr hb
    simp [runChecker, rangeStep, hm, hskip, hs, hr, hb]
  · intro env git m hm hskip hs hb
    simp [runChecker, rangeStep, hm, hskip, hs, hb]

/-- Witness for the amended claim C7: each of the five read points at a
concrete environment. -/
theorem C7_missing_vars_witness :
    runChecker envNone gitEmptyDiff = .error "CI_COMMIT_MESSAGE" ∧
    runChecker envMsgOnly gitEmptyDiff = .error "CI_PIPELINE_SOURCE" ∧
    runChecker envPushNoRef gitEmptyDiff = .error "CI_COMMIT_REF_NAME" ∧
    runChecker envPushMainNoBefore gitEmptyDiff =
      .error "CI_COMMIT_BEFORE_SHA" ∧
    runChecker envMergeNoBase gitEmptyDiff =
      .error "CI_MERGE_REQUEST_DIFF_BASE_SHA" :=
  ⟨C7_missing_vars.1 envNone gitEmptyDiff rfl,
   C7_missing_vars.2.1 envMsgOnly gitEmptyDiff "fix bug" rfl (by decide) rfl,
   C7_missing_vars.2.2.1 envPushNoRef gitEmptyDiff "fix bug" rfl
     (by decide) rfl rfl,
   C7_missing_vars.2.2.2.1 envPushMainNoBefore gitEmptyDiff "fix bug" rfl
     (by decide) rfl rfl rfl,
   C7_missing_vars.2.2.2.2 envMergeNoBase gitEmptyDiff "fix bug" rfl
     (by decide) rfl rfl⟩

/-- Claim C8: on every run that reaches the policy check (the diff query
returned with an empty error stream), the printed output is exactly the
changed-file report — naming the range used and the diff output — followed
by the verdict, so the report precedes the verdict both when the policy
check passes and when it fails. -/
theorem C8_report_before_verdict (env : String → Option String)
    (git : String → DiffResult) (r : Run) (t : String)
    (h : runChecker env git = .ok r) (ht : r.invoked = some t)
    (he : (git t).stderr = "") :
    r.output = [reportLine t (git t),
      if policyMatch (git t).stdout then passMsg else failMsg] := by
  obtain ⟨-, ho⟩ := runChecker_ok_invoked env git r t h ht
  rw [ho]
  by_cases hp : policyMatch (git t).stdout <;> simp [postDiff, he, hp]

/-- Witness for claim C8 at a concrete failing run: the report line comes
first, the verdict second. -/
theorem C8_report_before_verdict_witness :
    (⟨1, [reportLine "main.." (gitEmptyDiff "main.."), failMsg],
      ["CI_COMMIT_MESSAGE", "CI_PIPELINE_SOURCE", "CI_PIPELINE_SOURCE"],
      some "main.."⟩ : Run).output =
      [reportLine "main.." (gitEmptyDiff "main.."),
       if policyMatch (gitEmptyDiff "main..").stdout then passMsg
       else failMsg] :=
  C8_report_before_verdict envNoSkip gitEmptyDiff _ "main.." rfl rfl rfl

/-- Claim C9: when the commit message matches the skip pattern, the run
exits with status 0, its access trace holds only the commit-message
variable, and no diff subprocess is spawned; consequently any two
environments agreeing on the commit message — whatever the other four
variables hold or lack — produce identical runs. -/
theorem C9_skip_reads_only_message
    (env1 env2 : String → Option String) (git1 git2 : String → DiffResult)
    (m : String)
    (h1 : env1 "CI_COMMIT_MESSAGE" = some m)
    (h2 : env2 "CI_COMMIT_MESSAGE" = some m)
    (hs : skipChangelogMatch m = true) :
    runChecker env1 git1 =
      .ok ⟨0, ["Changelog skipped."], ["CI_COMMIT_MESSAGE"], none⟩ ∧
    runChecker env2 git2 = runChecker env1 git1 := by
  constructor
  · unfold runChecker
    rw [h1]
    simp [hs]
  · unfold runChecker
    rw [h1, h2]
    simp [hs]

/-- Witness for claim C9: a skip-marked run over an environment holding
nothing but the commit message equals the run over an environment where
every other variable is present, under two different diff oracles. -/
theorem C9_skip_reads_only_message_witness :
    runChecker envSkipOnly gitEmptyDiff =
      .ok ⟨0, ["Changelog skipped."], ["CI_COMMIT_MESSAGE"], none⟩ ∧
    runChecker envSkipFull gitBadRange = runChecker envSkipOnly gitEmptyDiff :=
  C9_skip_reads_only_message envSkipOnly envSkipFull gitEmptyDiff gitBadRange
    "skip-changelog" rfl rfl (by decide)

/-- Claim C10: the program is deterministic — two runs over pointwise
equal environments and pointwise equal diff oracles produce the same
outcome (same exit status or fault, same printed output). -/
theorem C10_deterministic (env1 env2 : String → Option String)
    (git1 git2 : String → DiffResult)
    (he : ∀ k, env1 k = env2 k) (hg : ∀ t, git1 t = git2 t) :
    runChecker env1 git1 = runChecker env2 git2 := by
  have h1 : env1 = env2 := funext he
  have h2 : git1 = git2 := funext hg
  rw [h1, h2]

/-- Witness for claim C10 at a concrete pair of equal inputs. -/
theorem C10_deterministic_witness :
    runChecker envNoSkip gitPassDiff = runChecker envNoSkip gitPassDiff :=
  C10_deterministic envNoSkip envNoSkip gitPassDiff gitPassDiff
    (fun _ => rfl) (fun _ => rfl)

end ChangelogGate
